import Mathlib

/-!
Shallow embedding of `shell/platform/fuchsia/runtime/dart/utils/mapped_resource.cc`.

External calls (fdio, zx syscalls, Dart ELF loader) are modelled by a `World`
record supplying their outcomes, and every function additionally records the
trace of external calls it performs, so that claims about "no filesystem access
occurs", "descriptor closed on every path" or "unload invoked exactly once"
become statements about the trace.
-/

set_option autoImplicit false

namespace DartUtils

/-- C++ `std::string::operator[]` at index 0: the first character of the
string, or (guaranteed since C++11) the null character for the empty string. -/
def cxxIndexZero (s : String) : Char := s.data.headD (Char.ofNat 0)

/-- `ZX_OK`. -/
def ZX_OK : Int := 0

/-- `ZX_VM_PERM_READ` (bit 0). -/
def ZX_VM_PERM_READ : Nat := 1

/-- `ZX_VM_PERM_WRITE` (bit 1). -/
def ZX_VM_PERM_WRITE : Nat := 2

/-- `ZX_VM_PERM_EXECUTE` (bit 2). -/
def ZX_VM_PERM_EXECUTE : Nat := 4

/-- `AT_FDCWD`: the sentinel directory descriptor meaning "current context". -/
def AT_FDCWD : Int := -100

/-- `fuchsia::mem::Buffer`: a VMO handle (abstracted as a numeric id) plus a
size in bytes. -/
structure MemBuffer where
  vmo : Nat
  size : Nat
deriving DecidableEq

/-- External calls performed by the code, recorded in order. -/
inductive Event where
  /-- `fdio_ns_opendir(namespc)` -/
  | nsOpendir : Event
  /-- `close(fd)` -/
  | closeFd : Int → Event
  /-- `VmoFromFilename(path, ...)` (direct filename lookup, no namespace) -/
  | vmoFromFilename : String → Event
  /-- `VmoFromFilenameAt(fd, path, ...)` (descriptor-relative lookup) -/
  | vmoFromFilenameAt : Int → String → Event
  /-- `zx_handle_replace`-style `vmo.replace_as_executable(...)` -/
  | replaceAsExecutable : Event
  /-- `zx::vmar::root_self()->map(0, vmo, 0, size, flags, &addr)` -/
  | vmarMap : Nat → Nat → Event
  /-- `fdio_open_fd_at(dirfd, path, READABLE | EXECUTABLE, &fd)` -/
  | fdioOpenFdAt : Int → String → Event
  /-- `Dart_LoadELF_Fd(fd, 0, &error, &vm_data_, &vm_instrs_, &isolate_data_, &isolate_instrs_)` -/
  | dartLoadElfFd : Int → Event
  /-- `Dart_UnloadELF(handle)` -/
  | dartUnloadElf : Option Nat → Event
deriving DecidableEq

/-- A trace of external calls, in program order. -/
abbrev Trace := List Event

/-- Is the event a filesystem lookup / access (directory open, buffer
acquisition, or file-descriptor open)? -/
def Event.isLookup : Event → Bool
  | .nsOpendir => true
  | .vmoFromFilename _ => true
  | .vmoFromFilenameAt _ _ => true
  | .fdioOpenFdAt _ _ => true
  | _ => false

/-- Is the event a memory-map request? -/
def Event.isMap : Event → Bool
  | .vmarMap _ _ => true
  | _ => false

/-- Is the event a `close` of some descriptor? -/
def Event.isClose : Event → Bool
  | .closeFd _ => true
  | _ => false

/-- Is the event an invocation of the external unload routine? -/
def Event.isUnload : Event → Bool
  | .dartUnloadElf _ => true
  | _ => false

/-- Outcomes of the external calls, fixed ahead of time.  Quantifying theorems
over `World` quantifies over every possible behaviour of the collaborators. -/
structure World where
  /-- result of `fdio_ns_opendir`; negative means failure -/
  nsOpendirFd : Int
  /-- result of `VmoFromFilename(path, &vmo)`: `none` = failure -/
  vmoFromFilenameResult : Option MemBuffer
  /-- result of `VmoFromFilenameAt(fd, path, &vmo)`: `none` = failure -/
  vmoFromFilenameAtResult : Option MemBuffer
  /-- status of `replace_as_executable` -/
  replaceAsExecStatus : Int
  /-- the replacement VMO handle written back by `replace_as_executable` -/
  replacedVmo : Nat
  /-- status of `zx_vmar_map` -/
  mapStatus : Int
  /-- address produced by a successful `zx_vmar_map` (never 0 on Zircon) -/
  mapAddr : Nat
  /-- status of `fdio_open_fd_at` -/
  openFdAtStatus : Int
  /-- fd written by a successful `fdio_open_fd_at` -/
  openFdAtFd : Int
  /-- handle returned by `Dart_LoadELF_Fd`: `none` = `nullptr` (failure) -/
  loadElfHandle : Option Nat
  /-- value left in `*vm_data` by `Dart_LoadELF_Fd` -/
  loadElfVmData : Nat
  /-- value left in `*vm_instrs` by `Dart_LoadELF_Fd` -/
  loadElfVmInstrs : Nat
  /-- value left in `*isolate_data` by `Dart_LoadELF_Fd` -/
  loadElfIsolateData : Nat
  /-- value left in `*isolate_instrs` by `Dart_LoadELF_Fd` -/
  loadElfIsolateInstrs : Nat
deriving DecidableEq

/-- Modelled from the spec: the class fields declared in the missing header
`mapped_resource.h` ("default-constructed instances have address = null,
size = 0").  Addresses are numeric; `0` is the null pointer. -/
structure MappedResource where
  address : Nat := 0
  size : Nat := 0
deriving DecidableEq

/-- Modelled from the spec: the class fields declared in the missing header
`mapped_resource.h` ("On failure, the instance remains empty; the loader
handle stays unset").  `handle = none` is the unset (`nullptr`) state; the
four region pointers are numeric, `0` being null. -/
structure ElfSnapshot where
  handle : Option Nat := none
  vm_data : Nat := 0
  vm_instrs : Nat := 0
  isolate_data : Nat := 0
  isolate_instrs : Nat := 0
deriving DecidableEq

/-- Result of the static helper `OpenVmo`: the fatal assertion
`dart_utils::Check(path[0] != '/')` aborted the process, or the function
returned `false`, or it returned `true` having written `buf` into the
out-parameter. -/
inductive OpenVmoResult where
  | aborted : OpenVmoResult
  | failed : OpenVmoResult
  | success : MemBuffer → OpenVmoResult
deriving DecidableEq

/-- Acquisition phase of `OpenVmo` (mapped_resource.cc lines 38-54): with a
null namespace, a direct `VmoFromFilename` lookup; otherwise
`fdio_ns_opendir`, then on success `VmoFromFilenameAt` followed by `close` of
the directory descriptor regardless of the lookup's outcome.  Returns the
trace and the acquired buffer (`none` = the function returned `false`). -/
def acquireVmo (w : World) (namespcIsNull : Bool) (path : String) :
    Trace × Option MemBuffer :=
  if namespcIsNull then
    ([Event.vmoFromFilename path], w.vmoFromFilenameResult)
  else if w.nsOpendirFd < 0 then
    ([Event.nsOpendir], none)
  else
    ([Event.nsOpendir, Event.vmoFromFilenameAt w.nsOpendirFd path,
      Event.closeFd w.nsOpendirFd], w.vmoFromFilenameAtResult)

/-- Execute-rights escalation phase of `OpenVmo` (mapped_resource.cc lines
56-71): if `executable`, call `replace_as_executable` on the acquired VMO;
a non-OK status is a hard failure, otherwise the buffer's handle is replaced
by the executable one. -/
def grantExec (w : World) (executable : Bool) (t : Trace) (buf : MemBuffer) :
    Trace × OpenVmoResult :=
  if executable then
    if w.replaceAsExecStatus ≠ ZX_OK then
      (t ++ [Event.replaceAsExecutable], .failed)
    else
      (t ++ [Event.replaceAsExecutable],
        .success { buf with vmo := w.replacedVmo })
  else (t, .success buf)

/-- `static bool OpenVmo(resource_vmo, namespc, path, executable)`
(mapped_resource.cc lines 29-71).  `namespcIsNull` is `namespc == nullptr`.
The fatal assertion `dart_utils::Check(path[0] != '/', LOG_TAG)` runs before
any lookup. -/
def OpenVmo (w : World) (namespcIsNull : Bool) (path : String)
    (executable : Bool) : Trace × OpenVmoResult :=
  if cxxIndexZero path = '/' then ([], .aborted)
  else
    match acquireVmo w namespcIsNull path with
    | (t, none) => (t, .failed)
    | (t, some buf) => grantExec w executable t buf

/-- `bool MappedResource::LoadFromVmo(path, resource_vmo, resource, executable)`
(mapped_resource.cc lines 82-106).  Returns the trace, the boolean result, and
the final value of the out-parameter `resource`. -/
def LoadFromVmo (w : World) (path : String) (resource_vmo : MemBuffer)
    (resource : MappedResource) (executable : Bool) :
    Trace × Bool × MappedResource :=
  if resource_vmo.size = 0 then ([], true, resource)
  else
    let flags : Nat :=
      if executable then ZX_VM_PERM_READ ||| ZX_VM_PERM_EXECUTE
      else ZX_VM_PERM_READ
    if w.mapStatus ≠ ZX_OK then
      ([Event.vmarMap resource_vmo.size flags], false, resource)
    else
      ([Event.vmarMap resource_vmo.size flags], true,
        { address := w.mapAddr, size := resource_vmo.size })

/-- Result of `MappedResource::LoadFromNamespace`: either the `Check` in
`OpenVmo` aborted the process, or the call returned with a boolean result and
a final value of the out-parameter `resource`. -/
inductive LoadOutcome where
  | aborted : LoadOutcome
  | returned : Bool → MappedResource → LoadOutcome
deriving DecidableEq

/-- `bool MappedResource::LoadFromNamespace(namespc, path, resource, executable)`
(mapped_resource.cc lines 73-80): `OpenVmo(...) && LoadFromVmo(...)`. -/
def LoadFromNamespace (w : World) (namespcIsNull : Bool) (path : String)
    (resource : MappedResource) (executable : Bool) : Trace × LoadOutcome :=
  match OpenVmo w namespcIsNull path executable with
  | (t, .aborted) => (t, .aborted)
  | (t, .failed) => (t, .returned false resource)
  | (t, .success buf) =>
    let r := LoadFromVmo w path buf resource executable
    (t ++ r.1, .returned r.2.1 r.2.2)

/-- `static int OpenFdExec(path, dirfd)` (mapped_resource.cc lines 117-128):
open with `OPEN_RIGHT_READABLE | OPEN_RIGHT_EXECUTABLE`, returning `-1` on
failure. -/
def OpenFdExec (w : World) (path : String) (dirfd : Int) : Trace × Int :=
  ([Event.fdioOpenFdAt dirfd path],
    if w.openFdAtStatus ≠ ZX_OK then -1 else w.openFdAtFd)

/-- `bool ElfSnapshot::Load(int fd)` (mapped_resource.cc lines 153-162):
`handle_` and the four region pointers are written by `Dart_LoadELF_Fd`
through the out-pointers; returns `handle_ != nullptr`. -/
def ElfSnapshot.LoadFd (w : World) (s : ElfSnapshot) (fd : Int) :
    Trace × Bool × ElfSnapshot :=
  let s2 : ElfSnapshot :=
    { handle := w.loadElfHandle
      vm_data := w.loadElfVmData
      vm_instrs := w.loadElfVmInstrs
      isolate_data := w.loadElfIsolateData
      isolate_instrs := w.loadElfIsolateInstrs }
  ([Event.dartLoadElfFd fd], w.loadElfHandle.isSome, s2)

/-- `bool ElfSnapshot::Load(int dirfd, const std::string& path)`
(mapped_resource.cc lines 144-151). -/
def ElfSnapshot.LoadDir (w : World) (s : ElfSnapshot) (dirfd : Int)
    (path : String) : Trace × Bool × ElfSnapshot :=
  let o := OpenFdExec w path dirfd
  if o.2 < 0 then (o.1, false, s)
  else
    let r := ElfSnapshot.LoadFd w s o.2
    (o.1 ++ r.1, r.2.1, r.2.2)

/-- `bool ElfSnapshot::Load(fdio_ns_t* namespc, const std::string& path)`
(mapped_resource.cc lines 129-142).  `namespcIsNull` is `namespc == nullptr`. -/
def ElfSnapshot.LoadNs (w : World) (s : ElfSnapshot) (namespcIsNull : Bool)
    (path : String) : Trace × Bool × ElfSnapshot :=
  if namespcIsNull then ElfSnapshot.LoadDir w s AT_FDCWD path
  else if w.nsOpendirFd < 0 then ([Event.nsOpendir], false, s)
  else
    let r := ElfSnapshot.LoadDir w s w.nsOpendirFd path
    (Event.nsOpendir :: r.1, r.2.1, r.2.2)

/-- `ElfSnapshot::~ElfSnapshot()` (mapped_resource.cc lines 164-166):
`Dart_UnloadELF(handle_);` — unconditional, and `handle_` is not cleared. -/
def ElfSnapshot.destructor (s : ElfSnapshot) : Trace :=
  [Event.dartUnloadElf s.handle]

/-- A sample world in which every external call succeeds. -/
def allOkWorld : World :=
  { nsOpendirFd := 3
    vmoFromFilenameResult := some { vmo := 21, size := 10 }
    vmoFromFilenameAtResult := some { vmo := 22, size := 10 }
    replaceAsExecStatus := 0
    replacedVmo := 23
    mapStatus := 0
    mapAddr := 4096
    openFdAtStatus := 0
    openFdAtFd := 7
    loadElfHandle := some 1
    loadElfVmData := 101
    loadElfVmInstrs := 102
    loadElfIsolateData := 103
    loadElfIsolateInstrs := 104 }

/-! ### Helper lemmas -/

/-- The acquisition phase never records a memory-map request. -/
theorem acquireVmo_no_map (w : World) (ns : Bool) (path : String) :
    ∀ e ∈ (acquireVmo w ns path).1, e.isMap = false := by
  unfold acquireVmo
  split_ifs <;> simp [Event.isMap]

/-- The escalation phase only appends `replaceAsExecutable` events, so it
records no memory-map request either. -/
theorem grantExec_no_map (w : World) (exe : Bool) (t : Trace)
    (buf : MemBuffer) (h : ∀ e ∈ t, e.isMap = false) :
    ∀ e ∈ (grantExec w exe t buf).1, e.isMap = false := by
  unfold grantExec
  split_ifs <;> intro e he <;>
    first
      | exact h e he
      | (rcases List.mem_append.mp he with h2 | h2
         · exact h e h2
         · simp at h2
           subst h2
           rfl)

/-- The escalation phase never aborts. -/
theorem grantExec_ne_aborted (w : World) (exe : Bool) (t : Trace)
    (buf : MemBuffer) : (grantExec w exe t buf).2 ≠ .aborted := by
  unfold grantExec
  split_ifs <;> simp

/-- The escalation phase only extends the trace it is given. -/
theorem grantExec_trace_extends (w : World) (exe : Bool) (t : Trace)
    (buf : MemBuffer) (e : Event) (he : e ∈ t) :
    e ∈ (grantExec w exe t buf).1 := by
  unfold grantExec
  split_ifs <;> simp [he]

/-- The escalation phase fails when `replace_as_executable` fails. -/
theorem grantExec_fail (w : World) (t : Trace) (buf : MemBuffer)
    (h : w.replaceAsExecStatus ≠ ZX_OK) :
    (grantExec w true t buf).2 = .failed := by
  unfold grantExec
  simp [h]

/-- Every event `OpenVmo` records is an acquisition- or escalation-phase
event: never a memory-map request. -/
theorem openVmo_trace_no_map (w : World) (ns : Bool) (path : String)
    (exe : Bool) : ∀ e ∈ (OpenVmo w ns path exe).1, e.isMap = false := by
  unfold OpenVmo
  by_cases hc : cxxIndexZero path = '/'
  · simp [hc]
  · rw [if_neg hc]
    have h1 := acquireVmo_no_map w ns path
    rcases hacq : acquireVmo w ns path with ⟨t, bufOpt⟩
    rw [hacq] at h1
    rcases bufOpt with _ | buf
    · simpa using h1
    · exact grantExec_no_map w exe t buf h1

/-- When the executable flag is set and the execute-rights grant fails,
`OpenVmo` never returns success. -/
theorem openVmo_exec_grant_failure (w : World) (ns : Bool) (path : String)
    (h : w.replaceAsExecStatus ≠ ZX_OK) :
    (OpenVmo w ns path true).2 = .aborted ∨
    (OpenVmo w ns path true).2 = .failed := by
  unfold OpenVmo
  by_cases hc : cxxIndexZero path = '/'
  · left
    simp [hc]
  · rw [if_neg hc]
    rcases hacq : acquireVmo w ns path with ⟨t, bufOpt⟩
    rcases bufOpt with _ | buf
    · right
      rfl
    · right
      exact grantExec_fail w t buf h

/-! ### C1 -/

/-- C1, counterexample: for the root-anchored path "/pkg/data",
`ElfSnapshot::Load(namespc, path)` performs no rejection at all — it opens
the namespace directory and attempts the file open, so a lookup does occur. -/
theorem elfLoadNs_root_anchored_not_rejected :
    cxxIndexZero "/pkg/data" = '/' ∧
    Event.nsOpendir ∈ (ElfSnapshot.LoadNs allOkWorld {} false "/pkg/data").1 ∧
    Event.fdioOpenFdAt 3 "/pkg/data" ∈
      (ElfSnapshot.LoadNs allOkWorld {} false "/pkg/data").1 := by
  refine ⟨rfl, ?_, ?_⟩ <;> decide

/-- C1, amended: `MappedResource::LoadFromNamespace` (via `OpenVmo`) rejects
every root-anchored path with a fatal assertion before any external call, so
no directory open, buffer acquisition, or descriptor open occurs there. -/
theorem loadFromNamespace_rejects_root_anchored (w : World) (ns : Bool)
    (path : String) (r : MappedResource) (exe : Bool)
    (h : cxxIndexZero path = '/') :
    LoadFromNamespace w ns path r exe = ([], .aborted) := by
  unfold LoadFromNamespace OpenVmo
  simp [h]

/-- C1, witness for `loadFromNamespace_rejects_root_anchored`. -/
theorem loadFromNamespace_rejects_root_anchored_witness :
    LoadFromNamespace allOkWorld true "/etc/passwd" {} false =
      ([], .aborted) :=
  loadFromNamespace_rejects_root_anchored allOkWorld true "/etc/passwd" {}
    false (by decide)

/-! ### C3 -/

/-- C3, counterexample: destroying a default-constructed `ElfSnapshot`
(loader handle unset) still invokes `Dart_UnloadELF` once — not zero times. -/
theorem elfDestructor_default_invokes_unload :
    ElfSnapshot.destructor {} = [Event.dartUnloadElf none] ∧
    (ElfSnapshot.destructor {}).countP (fun e => e.isUnload) = 1 := by
  constructor <;> rfl

/-- C3, amended: the destructor invokes `Dart_UnloadELF` exactly once,
unconditionally, passing whatever loader handle is stored (null for a
default-constructed instance or after a failed load); the handle is not
cleared by the destructor. -/
theorem elfDestructor_unconditional_unload (s : ElfSnapshot) :
    ElfSnapshot.destructor s = [Event.dartUnloadElf s.handle] := rfl

/-! ### C9 -/

/-- C9: indexing position 0 of the empty path yields the null character, not
a separator, so `OpenVmo` does not abort and proceeds to buffer acquisition. -/
theorem openVmo_empty_path_proceeds (w : World) (exe : Bool) :
    cxxIndexZero "" = Char.ofNat 0 ∧
    (OpenVmo w true "" exe).2 ≠ .aborted ∧
    Event.vmoFromFilename "" ∈ (OpenVmo w true "" exe).1 := by
  have hne : cxxIndexZero "" ≠ '/' := by decide
  have hov : OpenVmo w true "" exe =
      (match acquireVmo w true "" with
        | (t, none) => (t, .failed)
        | (t, some buf) => grantExec w exe t buf) := by
    unfold OpenVmo
    rw [if_neg hne]
  have hacq : acquireVmo w true "" =
      ([Event.vmoFromFilename ""], w.vmoFromFilenameResult) := rfl
  rw [hov, hacq]
  rcases w.vmoFromFilenameResult with _ | buf
  · exact ⟨rfl, by simp, by simp⟩
  · exact ⟨rfl, grantExec_ne_aborted w exe _ buf,
      grantExec_trace_extends w exe _ buf _ (by simp)⟩

/-! ### C2 -/

/-- C2: with the executable flag set, if `replace_as_executable` fails then
`MappedResource::LoadFromNamespace` never succeeds and never issues a
memory-map request — there is no fallback to a non-executable mapping. -/
theorem loadFromNamespace_exec_escalation_failure (w : World) (ns : Bool)
    (path : String) (r r2 : MappedResource)
    (h : w.replaceAsExecStatus ≠ ZX_OK) :
    (∀ e ∈ (LoadFromNamespace w ns path r true).1, e.isMap = false) ∧
    (LoadFromNamespace w ns path r true).2 ≠ .returned true r2 := by
  have hno := openVmo_trace_no_map w ns path true
  have hfail := openVmo_exec_grant_failure w ns path h
  unfold LoadFromNamespace
  rcases hov : OpenVmo w ns path true with ⟨t, res⟩
  rw [hov] at hno hfail
  rcases res with _ | _ | buf
  · exact ⟨hno, by simp⟩
  · exact ⟨hno, by simp⟩
  · rcases hfail with hf | hf <;> simp at hf

/-- A world in which the execute-rights grant fails but everything else
succeeds. -/
def execGrantFailWorld : World :=
  { allOkWorld with replaceAsExecStatus := 1 }

/-- C2, witness for `loadFromNamespace_exec_escalation_failure`. -/
theorem loadFromNamespace_exec_escalation_failure_witness :
    (∀ e ∈ (LoadFromNamespace execGrantFailWorld true "data/snap" {} true).1,
      e.isMap = false) ∧
    (LoadFromNamespace execGrantFailWorld true "data/snap" {} true).2 ≠
      .returned true {} :=
  loadFromNamespace_exec_escalation_failure execGrantFailWorld true
    "data/snap" {} {} (by decide)

/-! ### C4 -/

/-- C4, at the failing input: `ElfSnapshot::Load` with a non-null namespace
opens the namespace directory descriptor but never closes any descriptor on
the way out — the transient directory descriptor is leaked. -/
theorem elfLoadNs_leaks_namespace_descriptor :
    0 ≤ allOkWorld.nsOpendirFd ∧
    Event.nsOpendir ∈
      (ElfSnapshot.LoadNs allOkWorld {} false "data/snap").1 ∧
    ∀ e ∈ (ElfSnapshot.LoadNs allOkWorld {} false "data/snap").1,
      e.isClose = false := by
  refine ⟨by decide, by decide, by decide⟩

/-! ### C5 -/

/-- C5: a zero-size buffer makes `LoadFromVmo` a successful no-op: empty
trace (no mapping requested), result `true`, and the instance still has a
null address and zero size. -/
theorem loadFromVmo_zero_size_noop (w : World) (path : String)
    (buf : MemBuffer) (r : MappedResource) (exe : Bool)
    (hb : buf.size = 0) (ha : r.address = 0) (hs : r.size = 0) :
    (LoadFromVmo w path buf r exe).1 = [] ∧
    (LoadFromVmo w path buf r exe).2.1 = true ∧
    ((LoadFromVmo w path buf r exe).2.2).address = 0 ∧
    ((LoadFromVmo w path buf r exe).2.2).size = 0 := by
  unfold LoadFromVmo
  simp [hb, ha, hs]

/-- C5, witness for `loadFromVmo_zero_size_noop`. -/
theorem loadFromVmo_zero_size_noop_witness :
    (LoadFromVmo allOkWorld "data/empty" { vmo := 9, size := 0 } {} false).1
        = [] ∧
    (LoadFromVmo allOkWorld "data/empty" { vmo := 9, size := 0 } {}
        false).2.1 = true ∧
    ((LoadFromVmo allOkWorld "data/empty" { vmo := 9, size := 0 } {}
        false).2.2).address = 0 ∧
    ((LoadFromVmo allOkWorld "data/empty" { vmo := 9, size := 0 } {}
        false).2.2).size = 0 :=
  loadFromVmo_zero_size_noop allOkWorld "data/empty" { vmo := 9, size := 0 }
    {} false (by decide) (by decide) (by decide)

/-! ### C6 -/

/-- C6: a successful `LoadFromVmo` on a non-zero-size buffer yields a
non-null address and the buffer's size, and requests exactly one mapping
with protection read (non-executable) or read-plus-execute (executable);
neither flag value has the write bit. -/
theorem loadFromVmo_success_mapping (w : World) (path : String)
    (buf : MemBuffer) (r : MappedResource) (exe : Bool)
    (hb : buf.size ≠ 0) (hm : w.mapStatus = ZX_OK) (ha : w.mapAddr ≠ 0) :
    (LoadFromVmo w path buf r exe).2.1 = true ∧
    ((LoadFromVmo w path buf r exe).2.2).address ≠ 0 ∧
    ((LoadFromVmo w path buf r exe).2.2).size = buf.size ∧
    (LoadFromVmo w path buf r exe).1 =
      [Event.vmarMap buf.size
        (if exe then ZX_VM_PERM_READ ||| ZX_VM_PERM_EXECUTE
         else ZX_VM_PERM_READ)] ∧
    ZX_VM_PERM_READ &&& ZX_VM_PERM_WRITE = 0 ∧
    (ZX_VM_PERM_READ ||| ZX_VM_PERM_EXECUTE) &&& ZX_VM_PERM_WRITE = 0 := by
  refine ⟨?_, ?_, ?_, ?_, by decide, by decide⟩ <;>
    · unfold LoadFromVmo
      simp [hb, hm, ha]

/-- C6, witness for `loadFromVmo_success_mapping`. -/
theorem loadFromVmo_success_mapping_witness :
    (LoadFromVmo allOkWorld "data/snap" { vmo := 9, size := 10 } {}
        true).2.1 = true ∧
    ((LoadFromVmo allOkWorld "data/snap" { vmo := 9, size := 10 } {}
        true).2.2).address ≠ 0 ∧
    ((LoadFromVmo allOkWorld "data/snap" { vmo := 9, size := 10 } {}
        true).2.2).size = (MemBuffer.mk 9 10).size ∧
    (LoadFromVmo allOkWorld "data/snap" { vmo := 9, size := 10 } {}
        true).1 =
      [Event.vmarMap (MemBuffer.mk 9 10).size
        (if true then ZX_VM_PERM_READ ||| ZX_VM_PERM_EXECUTE
         else ZX_VM_PERM_READ)] ∧
    ZX_VM_PERM_READ &&& ZX_VM_PERM_WRITE = 0 ∧
    (ZX_VM_PERM_READ ||| ZX_VM_PERM_EXECUTE) &&& ZX_VM_PERM_WRITE = 0 :=
  loadFromVmo_success_mapping allOkWorld "data/snap" { vmo := 9, size := 10 }
    {} true (by decide) (by decide) (by decide)

/-! ### C7 -/

/-- C7: when the memory-map call fails, `LoadFromVmo` reports failure and
leaves the instance exactly as it was before the call. -/
theorem loadFromVmo_map_failure_preserves (w : World) (path : String)
    (buf : MemBuffer) (r : MappedResource) (exe : Bool)
    (hb : buf.size ≠ 0) (hm : w.mapStatus ≠ ZX_OK) :
    (LoadFromVmo w path buf r exe).2.1 = false ∧
    (LoadFromVmo w path buf r exe).2.2 = r := by
  unfold LoadFromVmo
  simp [hb, hm]

/-- A world in which the memory-map call fails but everything else
succeeds. -/
def mapFailWorld : World :=
  { allOkWorld with mapStatus := 1 }

/-- C7, witness for `loadFromVmo_map_failure_preserves`. -/
theorem loadFromVmo_map_failure_preserves_witness :
    (LoadFromVmo mapFailWorld "data/snap" { vmo := 9, size := 10 }
        { address := 8192, size := 4 } false).2.1 = false ∧
    (LoadFromVmo mapFailWorld "data/snap" { vmo := 9, size := 10 }
        { address := 8192, size := 4 } false).2.2 =
      { address := 8192, size := 4 } :=
  loadFromVmo_map_failure_preserves mapFailWorld "data/snap"
    { vmo := 9, size := 10 } { address := 8192, size := 4 } false
    (by decide) (by decide)

/-! ### C8 -/

/-- When the read+execute open succeeds, the descriptor layer is exactly
"record the open, then delegate to the raw-fd layer". -/
theorem elfLoadDir_delegates (w : World) (s : ElfSnapshot) (dirfd : Int)
    (path : String) (h2 : w.openFdAtStatus = ZX_OK)
    (h3 : 0 ≤ w.openFdAtFd) :
    ElfSnapshot.LoadDir w s dirfd path =
      (Event.fdioOpenFdAt dirfd path ::
          (ElfSnapshot.LoadFd w s w.openFdAtFd).1,
        (ElfSnapshot.LoadFd w s w.openFdAtFd).2.1,
        (ElfSnapshot.LoadFd w s w.openFdAtFd).2.2) := by
  have hlt : ¬ w.openFdAtFd < 0 := not_lt.mpr h3
  unfold ElfSnapshot.LoadDir OpenFdExec
  simp [h2, hlt]

/-- C8: when resolution succeeds at every layer, the three `ElfSnapshot`
entry points (namespace + path, directory descriptor + path, raw fd)
produce identical success/failure outcomes and identical stored snapshots,
and each higher layer delegates to the next lower one, adding only its own
resolution step to the trace. -/
theorem elfLoad_layered_equivalence (w : World) (s : ElfSnapshot)
    (dirfd : Int) (path : String) (h1 : 0 ≤ w.nsOpendirFd)
    (h2 : w.openFdAtStatus = ZX_OK) (h3 : 0 ≤ w.openFdAtFd) :
    (ElfSnapshot.LoadNs w s false path).2 =
      (ElfSnapshot.LoadFd w s w.openFdAtFd).2 ∧
    (ElfSnapshot.LoadNs w s true path).2 =
      (ElfSnapshot.LoadFd w s w.openFdAtFd).2 ∧
    (ElfSnapshot.LoadDir w s dirfd path).2 =
      (ElfSnapshot.LoadFd w s w.openFdAtFd).2 ∧
    (ElfSnapshot.LoadNs w s false path).1 =
      Event.nsOpendir :: (ElfSnapshot.LoadDir w s w.nsOpendirFd path).1 ∧
    (ElfSnapshot.LoadDir w s dirfd path).1 =
      Event.fdioOpenFdAt dirfd path ::
        (ElfSnapshot.LoadFd w s w.openFdAtFd).1 := by
  have hns : ¬ w.nsOpendirFd < 0 := not_lt.mpr h1
  have hd := fun d => elfLoadDir_delegates w s d path h2 h3
  refine ⟨?_, ?_, ?_, ?_, ?_⟩
  · simp [ElfSnapshot.LoadNs, hns, hd]
  · simp [ElfSnapshot.LoadNs, hd]
  · simp [hd]
  · simp [ElfSnapshot.LoadNs, hns]
  · simp [hd]

/-- C8, witness for `elfLoad_layered_equivalence`. -/
theorem elfLoad_layered_equivalence_witness :
    (ElfSnapshot.LoadNs allOkWorld {} false "data/app.so").2 =
      (ElfSnapshot.LoadFd allOkWorld {} allOkWorld.openFdAtFd).2 ∧
    (ElfSnapshot.LoadNs allOkWorld {} true "data/app.so").2 =
      (ElfSnapshot.LoadFd allOkWorld {} allOkWorld.openFdAtFd).2 ∧
    (ElfSnapshot.LoadDir allOkWorld {} 3 "data/app.so").2 =
      (ElfSnapshot.LoadFd allOkWorld {} allOkWorld.openFdAtFd).2 ∧
    (ElfSnapshot.LoadNs allOkWorld {} false "data/app.so").1 =
      Event.nsOpendir ::
        (ElfSnapshot.LoadDir allOkWorld {} allOkWorld.nsOpendirFd
          "data/app.so").1 ∧
    (ElfSnapshot.LoadDir allOkWorld {} 3 "data/app.so").1 =
      Event.fdioOpenFdAt 3 "data/app.so" ::
        (ElfSnapshot.LoadFd allOkWorld {} allOkWorld.openFdAtFd).1 :=
  elfLoad_layered_equivalence allOkWorld {} 3 "data/app.so" (by decide)
    (by decide) (by decide)

/-! ### C10 -/

/-- C10: `ElfSnapshot::Load(fd)` on an already-loaded instance overwrites
the loader handle and all four region pointers with whatever the new
`Dart_LoadELF_Fd` call produces (a null handle when it fails), returns
success exactly when the new handle is non-null, and never invokes the
unload routine on the previously stored handle. -/
theorem elfLoadFd_overwrites_unconditionally (w : World) (s : ElfSnapshot)
    (fd : Int) (h : s.handle.isSome = true) :
    ((ElfSnapshot.LoadFd w s fd).2.2).handle = w.loadElfHandle ∧
    ((ElfSnapshot.LoadFd w s fd).2.2).vm_data = w.loadElfVmData ∧
    ((ElfSnapshot.LoadFd w s fd).2.2).vm_instrs = w.loadElfVmInstrs ∧
    ((ElfSnapshot.LoadFd w s fd).2.2).isolate_data =
      w.loadElfIsolateData ∧
    ((ElfSnapshot.LoadFd w s fd).2.2).isolate_instrs =
      w.loadElfIsolateInstrs ∧
    (ElfSnapshot.LoadFd w s fd).2.1 = w.loadElfHandle.isSome ∧
    ∀ e ∈ (ElfSnapshot.LoadFd w s fd).1, e.isUnload = false := by
  refine ⟨rfl, rfl, rfl, rfl, rfl, rfl, ?_⟩
  simp [ElfSnapshot.LoadFd, Event.isUnload]

/-- A previously loaded snapshot instance. -/
def loadedSnapshot : ElfSnapshot :=
  { handle := some 5, vm_data := 1, vm_instrs := 2, isolate_data := 3,
    isolate_instrs := 4 }

/-- A world in which `Dart_LoadELF_Fd` fails, returning a null handle. -/
def elfLoadFailWorld : World :=
  { allOkWorld with
    loadElfHandle := none
    loadElfVmData := 0
    loadElfVmInstrs := 0
    loadElfIsolateData := 0
    loadElfIsolateInstrs := 0 }

/-- C10, witness for `elfLoadFd_overwrites_unconditionally`, at a failing
reload on a previously loaded instance. -/
theorem elfLoadFd_overwrites_unconditionally_witness :
    ((ElfSnapshot.LoadFd elfLoadFailWorld loadedSnapshot 7).2.2).handle =
      elfLoadFailWorld.loadElfHandle ∧
    ((ElfSnapshot.LoadFd elfLoadFailWorld loadedSnapshot 7).2.2).vm_data =
      elfLoadFailWorld.loadElfVmData ∧
    ((ElfSnapshot.LoadFd elfLoadFailWorld loadedSnapshot 7).2.2).vm_instrs =
      elfLoadFailWorld.loadElfVmInstrs ∧
    ((ElfSnapshot.LoadFd elfLoadFailWorld loadedSnapshot
        7).2.2).isolate_data = elfLoadFailWorld.loadElfIsolateData ∧
    ((ElfSnapshot.LoadFd elfLoadFailWorld loadedSnapshot
        7).2.2).isolate_instrs = elfLoadFailWorld.loadElfIsolateInstrs ∧
    (ElfSnapshot.LoadFd elfLoadFailWorld loadedSnapshot 7).2.1 =
      elfLoadFailWorld.loadElfHandle.isSome ∧
    ∀ e ∈ (ElfSnapshot.LoadFd elfLoadFailWorld loadedSnapshot 7).1,
      e.isUnload = false :=
  elfLoadFd_overwrites_unconditionally elfLoadFailWorld loadedSnapshot 7
    (by decide)

end DartUtils
